import Mathlib

/-!
Shallow embedding of the media pitch-shifting pipeline of Pitch_Changher.py,
that is of the class ProcessorThread (methods run, _process_audio and
_process_video) together with the module level extension sets.  Samples are
modelled as rationals; the abstract pitch-shift capability
(librosa.effects.pitch_shift) is a function parameter of the model, and the
environmental outcomes of librosa.load, of the pydub mp3 export and of the
two ffmpeg subprocess invocations are fields of explicit environment
records.  Paths use the posix separator.
-/

namespace PitchChangher

/-- Supported audio extensions, line 47 of the source. -/
def SUPPORTED_AUDIO_EXTS : List String := [".wav", ".mp3", ".ogg", ".flac", ".m4a", ".aac"]

/-- Supported video extensions, line 48 of the source. -/
def SUPPORTED_VIDEO_EXTS : List String := [".mp4", ".mov", ".mkv"]

/-- Helper for the last index of a character: walks the list keeping the
index of the most recent occurrence, minus one when none was seen.  This
embeds the str.rfind calls inside os.path.splitext. -/
def lastIndexAux (c : Char) : List Char → Nat → Int → Int
  | [], _, acc => acc
  | x :: xs, i, acc => lastIndexAux c xs (i + 1) (if x = c then (i : Int) else acc)

/-- Last index of character c in the list, minus one when absent. -/
def rfindChar (s : List Char) (c : Char) : Int :=
  lastIndexAux c s 0 (-1)

/-- True when some character strictly between sepIndex and dotIndex is not a
dot: the condition under which os.path.splitext recognises an extension
(leading dots of a basename are not extension separators). -/
def hasRealStem (s : List Char) (sepIndex dotIndex : Int) : Bool :=
  (List.range s.length).any fun k =>
    decide (sepIndex < (k : Int)) && decide ((k : Int) < dotIndex) &&
      decide (s.getD k '.' ≠ '.')

/-- Extension component of os.path.splitext with the posix separator, as
used at lines 108 and 160 of the source. -/
def splitextExt (p : String) : String :=
  let s := p.data
  let sepIndex := rfindChar s '/'
  let dotIndex := rfindChar s '.'
  if sepIndex < dotIndex ∧ hasRealStem s sepIndex dotIndex = true then
    String.mk (s.drop dotIndex.toNat)
  else
    ""

/-- Embedding of str.lower; only ascii paths are at stake here. -/
def lowerStr (s : String) : String :=
  String.mk (s.data.map Char.toLower)

/-- Embedding of str.endswith: the second string is a suffix of the first. -/
def strEndsWith (s t : String) : Bool :=
  decide (t.data.length ≤ s.data.length) &&
    decide (s.data.drop (s.data.length - t.data.length) = t.data)

/-- Embedding of the dataclass JobConfig, lines 88 to 93 of the source. -/
structure JobConfig where
  in_path : String
  out_path : String
  semitone_shift : ℚ
  sr : Option Nat := none

/-- Type of the abstract pitch-shift capability: signal, sample rate and
semitone step count to shifted signal. -/
abbrev PitchCap := List ℚ → Nat → ℚ → List ℚ

/-- Result shape of librosa.load with mono set to False (line 126): a one
dimensional array for mono input, a channels times samples array
otherwise. -/
inductive LoadedAudio
  | mono (y : List ℚ)
  | multi (chans : List (List ℚ))
deriving DecidableEq

/-- The per channel list y_list built at lines 129 to 133. -/
def asChannelList : LoadedAudio → List (List ℚ)
  | .mono y => [y]
  | .multi chans => chans

/-- Number of channels of a loaded or assembled buffer set. -/
def loadedChannels : LoadedAudio → Nat
  | .mono _ => 1
  | .multi chans => chans.length

/-- Zero padding of a short channel up to the 2048 sample minimum analysis
window, lines 141 to 143 of the source. -/
def padChannel (sig : List ℚ) : List ℚ :=
  if sig.length < 2048 then sig ++ List.replicate (2048 - sig.length) 0 else sig

/-- The per channel transform loop at lines 135 to 150: each channel is
padded and handed to the abstract pitch-shift capability independently. -/
def processChannels (ps : PitchCap) (sr : Nat) (nSteps : ℚ) (yList : List (List ℚ)) :
    List (List ℚ) :=
  yList.map fun sig => ps (padChannel sig) sr nSteps

/-- Reassembly at lines 152 to 156.  More than one channel means np.stack,
which requires all channels to share one length (a ragged list raises
ValueError, modelled as none); exactly one channel yields the bare first
element, a one dimensional buffer; zero channels would evaluate
processed_channels[0] and raise IndexError, modelled as none. -/
def assembleY : List (List ℚ) → Option LoadedAudio
  | [] => none
  | [y0] => some (.mono y0)
  | y0 :: y1 :: rest =>
    if (y1 :: rest).all (fun c => decide (c.length = y0.length)) then
      some (.multi (y0 :: y1 :: rest))
    else
      none

/-- Environmental outcomes of the audio pipeline stages: the data and
sample rate produced by librosa.load, whether that load succeeds, and
whether the pydub mp3 export step succeeds. -/
structure AudioEnv where
  loaded : LoadedAudio
  srLoaded : Nat
  decodeOk : Bool
  mp3ExportOk : Bool

/-- Observable result of one _process_audio call, lines 122 to 175.  ticks
is the sequence of progress values the call emits; cfgOutUpdate records an
assignment to self.cfg.out_path when one happens (line 172); writtenTo is
the final audio file actually produced; outBuf is the assembled buffer Y
handed to the encoder; the tmpWav flags track the named temporary file of
the mp3 branch, lines 164 to 168. -/
structure AudioResult where
  ticks : List Nat
  success : Bool
  errMsg : String
  cfgOutUpdate : Option String
  writtenTo : Option String
  outBuf : Option LoadedAudio
  tmpWavCreated : Bool
  tmpWavRemoved : Bool
  transformAttempted : Bool

/-- The encode dispatch of _process_audio, lines 160 to 173.  The ticks 10,
30 and 70 are emitted before this point and 90 after a successful encode,
so each branch carries the full tick list of the call.  In the mp3 branch
the temporary wav file is created and deleted only after a successful
export: a failing export raises before the os.remove at line 168. -/
def encodePart (mp3Ok : Bool) (Y : LoadedAudio) (outPath : String) : AudioResult :=
  if lowerStr (splitextExt outPath) = ".wav" then
    { ticks := [10, 30, 70, 90], success := true, errMsg := "",
      cfgOutUpdate := none, writtenTo := some outPath, outBuf := some Y,
      tmpWavCreated := false, tmpWavRemoved := false, transformAttempted := true }
  else if lowerStr (splitextExt outPath) = ".mp3" then
    if mp3Ok = true then
      { ticks := [10, 30, 70, 90], success := true, errMsg := "",
        cfgOutUpdate := none, writtenTo := some outPath, outBuf := some Y,
        tmpWavCreated := true, tmpWavRemoved := true, transformAttempted := true }
    else
      { ticks := [10, 30, 70], success := false,
        errMsg := "pydub mp3 export failed", cfgOutUpdate := none,
        writtenTo := none, outBuf := some Y,
        tmpWavCreated := true, tmpWavRemoved := false, transformAttempted := true }
  else
    if strEndsWith (lowerStr outPath) ".wav" = true then
      { ticks := [10, 30, 70, 90], success := true, errMsg := "",
        cfgOutUpdate := none, writtenTo := some outPath, outBuf := some Y,
        tmpWavCreated := false, tmpWavRemoved := false, transformAttempted := true }
    else
      { ticks := [10, 30, 70, 90], success := true, errMsg := "",
        cfgOutUpdate := some (outPath ++ ".wav"),
        writtenTo := some (outPath ++ ".wav"), outBuf := some Y,
        tmpWavCreated := false, tmpWavRemoved := false, transformAttempted := true }

/-- Embedding of _process_audio, lines 122 to 175: emit 10, decode via
librosa.load (a failing load raises after the single tick), emit 30, run
the per channel loop, assemble Y (a failure there raises after 10 and 30),
then the encode dispatch. -/
def processAudio (ps : PitchCap) (a : AudioEnv) (nSteps : ℚ) (outPath : String) :
    AudioResult :=
  if a.decodeOk = true then
    match assembleY (processChannels ps a.srLoaded nSteps (asChannelList a.loaded)) with
    | some Y => encodePart a.mp3ExportOk Y outPath
    | none =>
      { ticks := [10, 30], success := false, errMsg := "channel assembly failed",
        cfgOutUpdate := none, writtenTo := none, outBuf := none,
        tmpWavCreated := false, tmpWavRemoved := false, transformAttempted := true }
  else
    { ticks := [10], success := false, errMsg := "librosa failed to load input",
      cfgOutUpdate := none, writtenTo := none, outBuf := none,
      tmpWavCreated := false, tmpWavRemoved := false, transformAttempted := false }

/-- Environmental outcomes of a whole job: the audio stage environment plus
the exit codes and captured stderr texts of the two ffmpeg subprocess
invocations of _process_video. -/
structure Env where
  audio : AudioEnv
  extractCode : Int
  extractStderrText : String
  muxCode : Int
  muxStderrText : String

/-- Observable result of one _process_video call, lines 177 to 250.
shiftedCreated records whether the shifted.wav temporary file was written;
tempDirRemoved reflects the with statement on tempfile.TemporaryDirectory,
which removes the scoped directory on every exit path; transcoderCalls
counts subprocess.run invocations; writtenTo is the final muxed output. -/
structure VideoResult where
  ticks : List Nat
  success : Bool
  errMsg : String
  cfgOutUpdate : Option String
  shiftedCreated : Bool
  tempDirRemoved : Bool
  transcoderCalls : Nat
  decodeAttempted : Bool
  transformAttempted : Bool
  writtenTo : Option String

/-- Embedding of _process_video, lines 177 to 250: emit 12, run the ffmpeg
extract (non zero exit raises with the captured stderr), emit 40, run
_process_audio on the extracted temporary toward td/shifted.wav, emit 70,
coerce the output path to end in .mp4 (appending, line 219, and updating
self.cfg.out_path, line 220), run the ffmpeg mux (non zero exit raises
with the captured stderr), emit 95. -/
def processVideo (ps : PitchCap) (env : Env) (nSteps : ℚ) (td outPath : String) :
    VideoResult :=
  if env.extractCode ≠ 0 then
    { ticks := [12], success := false,
      errMsg := "ffmpeg extract audio failed:\n" ++ env.extractStderrText,
      cfgOutUpdate := none, shiftedCreated := false, tempDirRemoved := true,
      transcoderCalls := 1, decodeAttempted := false, transformAttempted := false,
      writtenTo := none }
  else if (processAudio ps env.audio nSteps (td ++ "/shifted.wav")).success = true then
    if env.muxCode ≠ 0 then
      { ticks := 12 :: 40 :: (processAudio ps env.audio nSteps (td ++ "/shifted.wav")).ticks ++ [70],
        success := false,
        errMsg := "ffmpeg mux failed:\n" ++ env.muxStderrText,
        cfgOutUpdate := if strEndsWith (lowerStr outPath) ".mp4" = true
          then (processAudio ps env.audio nSteps (td ++ "/shifted.wav")).cfgOutUpdate
          else some (outPath ++ ".mp4"),
        shiftedCreated := (processAudio ps env.audio nSteps (td ++ "/shifted.wav")).writtenTo.isSome,
        tempDirRemoved := true, transcoderCalls := 2, decodeAttempted := true,
        transformAttempted := (processAudio ps env.audio nSteps (td ++ "/shifted.wav")).transformAttempted,
        writtenTo := none }
    else
      { ticks := 12 :: 40 :: (processAudio ps env.audio nSteps (td ++ "/shifted.wav")).ticks ++ [70, 95],
        success := true, errMsg := "",
        cfgOutUpdate := if strEndsWith (lowerStr outPath) ".mp4" = true
          then (processAudio ps env.audio nSteps (td ++ "/shifted.wav")).cfgOutUpdate
          else some (outPath ++ ".mp4"),
        shiftedCreated := (processAudio ps env.audio nSteps (td ++ "/shifted.wav")).writtenTo.isSome,
        tempDirRemoved := true, transcoderCalls := 2, decodeAttempted := true,
        transformAttempted := (processAudio ps env.audio nSteps (td ++ "/shifted.wav")).transformAttempted,
        writtenTo := some (if strEndsWith (lowerStr outPath) ".mp4" = true
          then outPath else outPath ++ ".mp4") }
  else
    { ticks := 12 :: 40 :: (processAudio ps env.audio nSteps (td ++ "/shifted.wav")).ticks,
      success := false,
      errMsg := (processAudio ps env.audio nSteps (td ++ "/shifted.wav")).errMsg,
      cfgOutUpdate := (processAudio ps env.audio nSteps (td ++ "/shifted.wav")).cfgOutUpdate,
      shiftedCreated := (processAudio ps env.audio nSteps (td ++ "/shifted.wav")).writtenTo.isSome,
      tempDirRemoved := true, transcoderCalls := 1, decodeAttempted := true,
      transformAttempted := (processAudio ps env.audio nSteps (td ++ "/shifted.wav")).transformAttempted,
      writtenTo := none }

/-- Terminal events of ProcessorThread.run: the finished_ok signal with the
reported output path, or the failed signal with the diagnostic text. -/
inductive JobOutcome
  | finishedOk (outPath : String)
  | failed (msg : String)
deriving DecidableEq

/-- Observable trace of a whole ProcessorThread.run call. -/
structure RunTrace where
  ticks : List Nat
  outcome : JobOutcome
  shiftedCreated : Bool
  tempDirRemoved : Bool
  transcoderCalls : Nat
  decodeAttempted : Bool
  transformAttempted : Bool
  pipelineEntered : Bool
  writtenTo : Option String

/-- Embedding of ProcessorThread.run, lines 105 to 119: emit 5, classify
the input by lowercased splitext extension, dispatch to the video or audio
pipeline, emit 100 and the finished_ok signal with self.cfg.out_path on
success, and on any exception emit the failed signal with the exception
text followed by the traceback text tbText. -/
def runJob (ps : PitchCap) (env : Env) (td tbText : String) (cfg : JobConfig) :
    RunTrace :=
  if lowerStr (splitextExt cfg.in_path) ∈ SUPPORTED_VIDEO_EXTS then
    if (processVideo ps env cfg.semitone_shift td cfg.out_path).success = true then
      { ticks := 5 :: (processVideo ps env cfg.semitone_shift td cfg.out_path).ticks ++ [100],
        outcome := .finishedOk
          ((processVideo ps env cfg.semitone_shift td cfg.out_path).cfgOutUpdate.getD cfg.out_path),
        shiftedCreated := (processVideo ps env cfg.semitone_shift td cfg.out_path).shiftedCreated,
        tempDirRemoved := (processVideo ps env cfg.semitone_shift td cfg.out_path).tempDirRemoved,
        transcoderCalls := (processVideo ps env cfg.semitone_shift td cfg.out_path).transcoderCalls,
        decodeAttempted := (processVideo ps env cfg.semitone_shift td cfg.out_path).decodeAttempted,
        transformAttempted := (processVideo ps env cfg.semitone_shift td cfg.out_path).transformAttempted,
        pipelineEntered := true,
        writtenTo := (processVideo ps env cfg.semitone_shift td cfg.out_path).writtenTo }
    else
      { ticks := 5 :: (processVideo ps env cfg.semitone_shift td cfg.out_path).ticks,
        outcome := .failed ("Error: " ++ (processVideo ps env cfg.semitone_shift td cfg.out_path).errMsg
          ++ "\n\n" ++ tbText),
        shiftedCreated := (processVideo ps env cfg.semitone_shift td cfg.out_path).shiftedCreated,
        tempDirRemoved := (processVideo ps env cfg.semitone_shift td cfg.out_path).tempDirRemoved,
        transcoderCalls := (processVideo ps env cfg.semitone_shift td cfg.out_path).transcoderCalls,
        decodeAttempted := (processVideo ps env cfg.semitone_shift td cfg.out_path).decodeAttempted,
        transformAttempted := (processVideo ps env cfg.semitone_shift td cfg.out_path).transformAttempted,
        pipelineEntered := true,
        writtenTo := (processVideo ps env cfg.semitone_shift td cfg.out_path).writtenTo }
  else if lowerStr (splitextExt cfg.in_path) ∈ SUPPORTED_AUDIO_EXTS then
    if (processAudio ps env.audio cfg.semitone_shift cfg.out_path).success = true then
      { ticks := 5 :: (processAudio ps env.audio cfg.semitone_shift cfg.out_path).ticks ++ [100],
        outcome := .finishedOk
          ((processAudio ps env.audio cfg.semitone_shift cfg.out_path).cfgOutUpdate.getD cfg.out_path),
        shiftedCreated := false, tempDirRemoved := true,
        transcoderCalls := 0, decodeAttempted := true,
        transformAttempted := (processAudio ps env.audio cfg.semitone_shift cfg.out_path).transformAttempted,
        pipelineEntered := true,
        writtenTo := (processAudio ps env.audio cfg.semitone_shift cfg.out_path).writtenTo }
    else
      { ticks := 5 :: (processAudio ps env.audio cfg.semitone_shift cfg.out_path).ticks,
        outcome := .failed ("Error: " ++ (processAudio ps env.audio cfg.semitone_shift cfg.out_path).errMsg
          ++ "\n\n" ++ tbText),
        shiftedCreated := false, tempDirRemoved := true,
        transcoderCalls := 0, decodeAttempted := true,
        transformAttempted := (processAudio ps env.audio cfg.semitone_shift cfg.out_path).transformAttempted,
        pipelineEntered := true,
        writtenTo := (processAudio ps env.audio cfg.semitone_shift cfg.out_path).writtenTo }
  else
    { ticks := [5],
      outcome := .failed ("Error: " ++ ("Unsupported file extension: "
        ++ lowerStr (splitextExt cfg.in_path)) ++ "\n\n" ++ tbText),
      shiftedCreated := false, tempDirRemoved := true,
      transcoderCalls := 0, decodeAttempted := false,
      transformAttempted := false, pipelineEntered := false,
      writtenTo := none }

/-- Monotone nondecreasing check on a tick sequence. -/
def monoTicksB : List Nat → Bool
  | [] => true
  | [_] => true
  | a :: b :: t => decide (a ≤ b) && monoTicksB (b :: t)

/-- Identity pitch capability, used for concrete evaluations. -/
def psId : PitchCap := fun sig _ _ => sig

lemma strOfDataEq : ∀ {a b : String}, a.data = b.data → a = b
  | ⟨_⟩, ⟨_⟩, h => congrArg String.mk h

lemma dataAppend : ∀ (a b : String), (a ++ b).data = a.data ++ b.data
  | ⟨_⟩, ⟨_⟩ => rfl

lemma strAppend_assoc (a b c : String) : (a ++ b) ++ c = a ++ (b ++ c) :=
  strOfDataEq (by simp [dataAppend])

lemma strAppendEmpty (a : String) : a ++ "" = a :=
  strOfDataEq (by simp [dataAppend, show ("" : String).data = [] from rfl])

lemma lowerStr_append (a b : String) : lowerStr (a ++ b) = lowerStr a ++ lowerStr b :=
  strOfDataEq (by simp [lowerStr, dataAppend])

lemma strEndsWith_append (p t : String) : strEndsWith (p ++ t) t = true := by
  simp only [strEndsWith, dataAppend, List.length_append, Bool.and_eq_true,
    decide_eq_true_eq]
  refine ⟨Nat.le_add_left _ _, ?_⟩
  rw [Nat.add_sub_cancel]
  exact List.drop_left _ _

lemma appendNeOfNonempty (p t : String) (h : t.data.length ≠ 0) : p ++ t ≠ p := by
  intro he
  have h2 : (p ++ t).data.length = p.data.length := by rw [he]
  rw [dataAppend, List.length_append] at h2
  omega

lemma audio_not_video {s : String} (h : s ∈ SUPPORTED_AUDIO_EXTS) :
    s ∉ SUPPORTED_VIDEO_EXTS := by
  intro hv
  simp only [SUPPORTED_AUDIO_EXTS, List.mem_cons, List.not_mem_nil, or_false] at h
  rcases h with rfl | rfl | rfl | rfl | rfl | rfl <;> exact absurd hv (by decide)

lemma shiftedLit : ("/shifted" ++ ".wav" : String) = "/shifted.wav" := by decide

lemma endsWith_td_shifted (td : String) :
    strEndsWith (lowerStr (td ++ "/shifted.wav")) ".wav" = true := by
  have h1 : (td ++ "/shifted.wav" : String) = (td ++ "/shifted") ++ ".wav" := by
    rw [strAppend_assoc, shiftedLit]
  rw [h1, lowerStr_append, show lowerStr ".wav" = ".wav" by decide]
  exact strEndsWith_append _ _

lemma padChannel_length_eq (sig : List ℚ) (h : sig.length < 2048) :
    (padChannel sig).length = 2048 := by
  unfold padChannel
  rw [if_pos h, List.length_append, List.length_replicate]
  omega

lemma processAudio_eq_encodePart (ps : PitchCap) (a : AudioEnv) (nSteps : ℚ)
    (out : String) (Y : LoadedAudio) (hdec : a.decodeOk = true)
    (hasm : assembleY (processChannels ps a.srLoaded nSteps (asChannelList a.loaded)) = some Y) :
    processAudio ps a nSteps out = encodePart a.mp3ExportOk Y out := by
  unfold processAudio
  rw [hdec, hasm]
  rfl

lemma encodePart_outBuf (m : Bool) (Y : LoadedAudio) (o : String) :
    (encodePart m Y o).outBuf = some Y := by
  unfold encodePart
  repeat' split
  all_goals rfl

lemma processAudio_cfgOutUpdate_cases (ps : PitchCap) (a : AudioEnv) (nSteps : ℚ)
    (out : String) :
    (processAudio ps a nSteps out).cfgOutUpdate = none ∨
      (processAudio ps a nSteps out).cfgOutUpdate = some (out ++ ".wav") := by
  unfold processAudio encodePart
  repeat' split
  all_goals first | (left ; rfl) | (right ; rfl)

lemma processAudio_shifted_noUpdate (ps : PitchCap) (a : AudioEnv) (nSteps : ℚ)
    (td : String) :
    (processAudio ps a nSteps (td ++ "/shifted.wav")).cfgOutUpdate = none := by
  unfold processAudio encodePart
  repeat' split
  all_goals first
    | rfl
    | (exact absurd (endsWith_td_shifted td) (by assumption))

lemma assembleY_eq_some {cs : List (List ℚ)} {Y : LoadedAudio}
    (h : assembleY cs = some Y) :
    asChannelList Y = cs ∧ loadedChannels Y = cs.length := by
  cases cs with
  | nil => simp [assembleY] at h
  | cons y0 tl =>
    cases tl with
    | nil =>
      simp only [assembleY, Option.some.injEq] at h
      subst h
      exact ⟨rfl, rfl⟩
    | cons y1 tl2 =>
      simp only [assembleY] at h
      split at h
      · simp only [Option.some.injEq] at h
        subst h
        exact ⟨rfl, rfl⟩
      · exact absurd h (by simp)

lemma processVideo_cfgOutUpdate_cases (ps : PitchCap) (env : Env) (nSteps : ℚ)
    (td out : String) :
    (processVideo ps env nSteps td out).cfgOutUpdate = none ∨
      (processVideo ps env nSteps td out).cfgOutUpdate = some (out ++ ".mp4") := by
  unfold processVideo
  repeat' split
  all_goals first
    | (left ; rfl)
    | (right ; rfl)
    | (left ; exact processAudio_shifted_noUpdate ps env.audio nSteps td)

/-- Claim C1 fails on the code: on a successful video job the run emits
the tick sequence 5, 12, 40, 10, 30, 70, 90, 70, 95, 100.  The embedded
audio stage re-emits its own 10, 30, 70, 90 ticks unscaled after the 40
tick already emitted at extraction, and _process_video emits 70 again
after the 90, so the emitted progress sequence is not monotonically
non-decreasing and the embedded ticks are not remapped into the 40 to 95
range. -/
theorem c1_video_progress_not_monotone :
    (runJob psId
        { audio := { loaded := .mono [1], srLoaded := 44100, decodeOk := true,
                     mp3ExportOk := true },
          extractCode := 0, extractStderrText := "", muxCode := 0, muxStderrText := "" }
        "/t" "tb"
        { in_path := "clip.mp4", out_path := "out.mp4", semitone_shift := 0,
          sr := none }).ticks = [5, 12, 40, 10, 30, 70, 90, 70, 95, 100] ∧
    monoTicksB [5, 12, 40, 10, 30, 70, 90, 70, 95, 100] = false := by
  constructor
  · decide
  · decide

/-- Claim C3 fails on the code: for an mp3 output the temporary wav file
is created, but when the pydub export step fails the os.remove at line
168 is never reached, so the temporary file is not deleted on that exit
path; it is deleted only on the success path. -/
theorem c3_mp3_temp_leak_on_export_failure :
    ((processAudio psId
        { loaded := .mono [1], srLoaded := 44100, decodeOk := true, mp3ExportOk := false }
        0 "song.mp3").tmpWavCreated = true ∧
      (processAudio psId
        { loaded := .mono [1], srLoaded := 44100, decodeOk := true, mp3ExportOk := false }
        0 "song.mp3").tmpWavRemoved = false ∧
      (processAudio psId
        { loaded := .mono [1], srLoaded := 44100, decodeOk := true, mp3ExportOk := false }
        0 "song.mp3").success = false) ∧
    (processAudio psId
        { loaded := .mono [1], srLoaded := 44100, decodeOk := true, mp3ExportOk := true }
        0 "song.mp3").tmpWavRemoved = true := by
  decide

/-- Claim C4: a channel shorter than 2048 samples is padded to exactly
2048 samples, agreeing with the original on its first samples and zero on
the padded tail; a channel of 2048 samples or more is passed to the
pitch-shift capability unmodified. -/
theorem c4_pad_to_min_window (sig : List ℚ) :
    (sig.length < 2048 →
      (padChannel sig).length = 2048 ∧
      (padChannel sig).take sig.length = sig ∧
      (padChannel sig).drop sig.length = List.replicate (2048 - sig.length) 0) ∧
    (2048 ≤ sig.length → padChannel sig = sig) := by
  constructor
  · intro h
    unfold padChannel
    rw [if_pos h]
    refine ⟨?_, ?_, ?_⟩
    · rw [List.length_append, List.length_replicate]
      omega
    · exact List.take_left sig _
    · exact List.drop_left sig _
  · intro h
    unfold padChannel
    rw [if_neg (by omega)]

theorem c4_pad_to_min_window_witness :
    (padChannel [(1 : ℚ), 2, 3]).length = 2048 ∧
      padChannel (List.replicate 2048 (0 : ℚ)) = List.replicate 2048 0 :=
  ⟨((c4_pad_to_min_window [1, 2, 3]).1 (by decide)).1,
   (c4_pad_to_min_window (List.replicate 2048 0)).2
     (by rw [List.length_replicate])⟩

/-- Claim C8: channels are transformed independently, so two channel lists
that agree at an index produce per channel results that agree at that
index, whatever the other channels hold. -/
theorem c8_no_cross_channel_mixing (ps : PitchCap) (sr : Nat) (nSteps : ℚ)
    (cs1 cs2 : List (List ℚ)) (i : Nat) (h : cs1[i]? = cs2[i]?) :
    (processChannels ps sr nSteps cs1)[i]? = (processChannels ps sr nSteps cs2)[i]? := by
  unfold processChannels
  rw [List.getElem?_map, List.getElem?_map, h]

theorem c8_no_cross_channel_mixing_witness :
    (processChannels psId 44100 0 [[(0 : ℚ)], [5]])[1]?
      = (processChannels psId 44100 0 [[(9 : ℚ)], [5]])[1]? :=
  c8_no_cross_channel_mixing psId 44100 0 [[0], [5]] [[9], [5]] 1 rfl

/-- Claim C5: when the ffmpeg extract invocation exits non zero, the video
job creates no shifted audio temporary file, the scoped temporary
directory is removed, no transform runs, and the job ends in the failed
state with a diagnostic containing the captured stderr text. -/
theorem c5_extract_failure_cleanup (ps : PitchCap) (env : Env) (td tbText : String)
    (cfg : JobConfig)
    (hin : lowerStr (splitextExt cfg.in_path) ∈ SUPPORTED_VIDEO_EXTS)
    (hfail : env.extractCode ≠ 0) :
    (runJob ps env td tbText cfg).shiftedCreated = false ∧
    (runJob ps env td tbText cfg).tempDirRemoved = true ∧
    (runJob ps env td tbText cfg).transformAttempted = false ∧
    ∃ pre post, (runJob ps env td tbText cfg).outcome
        = .failed (pre ++ env.extractStderrText ++ post) := by
  have hpv : processVideo ps env cfg.semitone_shift td cfg.out_path =
      { ticks := [12], success := false,
        errMsg := "ffmpeg extract audio failed:\n" ++ env.extractStderrText,
        cfgOutUpdate := none, shiftedCreated := false, tempDirRemoved := true,
        transcoderCalls := 1, decodeAttempted := false, transformAttempted := false,
        writtenTo := none } := by
    unfold processVideo
    rw [if_pos hfail]
  unfold runJob
  rw [if_pos hin, hpv]
  refine ⟨rfl, rfl, rfl,
    "Error: " ++ "ffmpeg extract audio failed:\n", "\n\n" ++ tbText, ?_⟩
  exact congrArg JobOutcome.failed (by simp only [strAppend_assoc])

theorem c5_extract_failure_cleanup_witness :
    (runJob psId
        { audio := { loaded := .mono [1], srLoaded := 44100, decodeOk := true,
                     mp3ExportOk := true },
          extractCode := 1, extractStderrText := "boom", muxCode := 0,
          muxStderrText := "" }
        "/t" "TB"
        { in_path := "clip.mp4", out_path := "o.mp4", semitone_shift := 0,
          sr := none }).shiftedCreated = false ∧
    (runJob psId
        { audio := { loaded := .mono [1], srLoaded := 44100, decodeOk := true,
                     mp3ExportOk := true },
          extractCode := 1, extractStderrText := "boom", muxCode := 0,
          muxStderrText := "" }
        "/t" "TB"
        { in_path := "clip.mp4", out_path := "o.mp4", semitone_shift := 0,
          sr := none }).tempDirRemoved = true ∧
    (runJob psId
        { audio := { loaded := .mono [1], srLoaded := 44100, decodeOk := true,
                     mp3ExportOk := true },
          extractCode := 1, extractStderrText := "boom", muxCode := 0,
          muxStderrText := "" }
        "/t" "TB"
        { in_path := "clip.mp4", out_path := "o.mp4", semitone_shift := 0,
          sr := none }).transformAttempted = false ∧
    ∃ pre post,
      (runJob psId
        { audio := { loaded := .mono [1], srLoaded := 44100, decodeOk := true,
                     mp3ExportOk := true },
          extractCode := 1, extractStderrText := "boom", muxCode := 0,
          muxStderrText := "" }
        "/t" "TB"
        { in_path := "clip.mp4", out_path := "o.mp4", semitone_shift := 0,
          sr := none }).outcome = .failed (pre ++ "boom" ++ post) :=
  c5_extract_failure_cleanup psId
    { audio := { loaded := .mono [1], srLoaded := 44100, decodeOk := true,
                 mp3ExportOk := true },
      extractCode := 1, extractStderrText := "boom", muxCode := 0,
      muxStderrText := "" }
    "/t" "TB"
    { in_path := "clip.mp4", out_path := "o.mp4", semitone_shift := 0, sr := none }
    (by decide) (by decide)

/-- Claim C9: an input whose lowercased extension is in neither supported
set makes the run fail right after the initial tick 5, without entering
either pipeline and without any decode, transform or transcoder
invocation, with the unsupported extension named in the diagnostic. -/
theorem c9_unsupported_ext_fails_early (ps : PitchCap) (env : Env)
    (td tbText : String) (cfg : JobConfig)
    (hv : lowerStr (splitextExt cfg.in_path) ∉ SUPPORTED_VIDEO_EXTS)
    (ha : lowerStr (splitextExt cfg.in_path) ∉ SUPPORTED_AUDIO_EXTS) :
    (runJob ps env td tbText cfg).outcome
        = .failed ("Error: " ++ ("Unsupported file extension: "
            ++ lowerStr (splitextExt cfg.in_path)) ++ "\n\n" ++ tbText) ∧
    (runJob ps env td tbText cfg).ticks = [5] ∧
    (runJob ps env td tbText cfg).pipelineEntered = false ∧
    (runJob ps env td tbText cfg).decodeAttempted = false ∧
    (runJob ps env td tbText cfg).transformAttempted = false ∧
    (runJob ps env td tbText cfg).transcoderCalls = 0 ∧
    (runJob ps env td tbText cfg).shiftedCreated = false ∧
    (runJob ps env td tbText cfg).writtenTo = none := by
  unfold runJob
  rw [if_neg hv, if_neg ha]
  exact ⟨rfl, rfl, rfl, rfl, rfl, rfl, rfl, rfl⟩

theorem c9_unsupported_ext_fails_early_witness :
    (runJob psId
        { audio := { loaded := .mono [1], srLoaded := 44100, decodeOk := true,
                     mp3ExportOk := true },
          extractCode := 0, extractStderrText := "", muxCode := 0, muxStderrText := "" }
        "/t" "TB"
        { in_path := "file.txt", out_path := "o", semitone_shift := 0,
          sr := none }).outcome
        = .failed ("Error: " ++ ("Unsupported file extension: "
            ++ lowerStr (splitextExt "file.txt")) ++ "\n\n" ++ "TB") ∧
    (runJob psId
        { audio := { loaded := .mono [1], srLoaded := 44100, decodeOk := true,
                     mp3ExportOk := true },
          extractCode := 0, extractStderrText := "", muxCode := 0, muxStderrText := "" }
        "/t" "TB"
        { in_path := "file.txt", out_path := "o", semitone_shift := 0,
          sr := none }).ticks = [5] ∧
    (runJob psId
        { audio := { loaded := .mono [1], srLoaded := 44100, decodeOk := true,
                     mp3ExportOk := true },
          extractCode := 0, extractStderrText := "", muxCode := 0, muxStderrText := "" }
        "/t" "TB"
        { in_path := "file.txt", out_path := "o", semitone_shift := 0,
          sr := none }).pipelineEntered = false ∧
    (runJob psId
        { audio := { loaded := .mono [1], srLoaded := 44100, decodeOk := true,
                     mp3ExportOk := true },
          extractCode := 0, extractStderrText := "", muxCode := 0, muxStderrText := "" }
        "/t" "TB"
        { in_path := "file.txt", out_path := "o", semitone_shift := 0,
          sr := none }).decodeAttempted = false ∧
    (runJob psId
        { audio := { loaded := .mono [1], srLoaded := 44100, decodeOk := true,
                     mp3ExportOk := true },
          extractCode := 0, extractStderrText := "", muxCode := 0, muxStderrText := "" }
        "/t" "TB"
        { in_path := "file.txt", out_path := "o", semitone_shift := 0,
          sr := none }).transformAttempted = false ∧
    (runJob psId
        { audio := { loaded := .mono [1], srLoaded := 44100, decodeOk := true,
                     mp3ExportOk := true },
          extractCode := 0, extractStderrText := "", muxCode := 0, muxStderrText := "" }
        "/t" "TB"
        { in_path := "file.txt", out_path := "o", semitone_shift := 0,
          sr := none }).transcoderCalls = 0 ∧
    (runJob psId
        { audio := { loaded := .mono [1], srLoaded := 44100, decodeOk := true,
                     mp3ExportOk := true },
          extractCode := 0, extractStderrText := "", muxCode := 0, muxStderrText := "" }
        "/t" "TB"
        { in_path := "file.txt", out_path := "o", semitone_shift := 0,
          sr := none }).shiftedCreated = false ∧
    (runJob psId
        { audio := { loaded := .mono [1], srLoaded := 44100, decodeOk := true,
                     mp3ExportOk := true },
          extractCode := 0, extractStderrText := "", muxCode := 0, muxStderrText := "" }
        "/t" "TB"
        { in_path := "file.txt", out_path := "o", semitone_shift := 0,
          sr := none }).writtenTo = none :=
  c9_unsupported_ext_fails_early psId
    { audio := { loaded := .mono [1], srLoaded := 44100, decodeOk := true,
                 mp3ExportOk := true },
      extractCode := 0, extractStderrText := "", muxCode := 0, muxStderrText := "" }
    "/t" "TB"
    { in_path := "file.txt", out_path := "o", semitone_shift := 0, sr := none }
    (by decide) (by decide)

/-- Claim C2 as stated fails on the code: the mux step coerces the output
path whenever it does not end in .mp4, so a requested path ending in .mov
is not left unchanged but becomes clip.mov.mp4. -/
theorem c2_mov_path_is_coerced :
    (runJob psId
        { audio := { loaded := .mono [1], srLoaded := 44100, decodeOk := true,
                     mp3ExportOk := true },
          extractCode := 0, extractStderrText := "", muxCode := 0, muxStderrText := "" }
        "/t" "tb"
        { in_path := "clip.mp4", out_path := "clip.mov", semitone_shift := 0,
          sr := none }).outcome = .finishedOk "clip.mov.mp4" ∧
    "clip.mov.mp4" ≠ "clip.mov" := by
  decide

/-- Claim C2 amended: on a successful video job the output path is left
unchanged when it already ends, case insensitively, in .mp4, and otherwise
has .mp4 appended, so that paths ending in .mov or .mkv are coerced as
well. -/
theorem c2_video_out_coercion_iff_not_mp4 (ps : PitchCap) (env : Env)
    (td tbText : String) (cfg : JobConfig)
    (hin : lowerStr (splitextExt cfg.in_path) ∈ SUPPORTED_VIDEO_EXTS)
    (hx : env.extractCode = 0) (hm : env.muxCode = 0)
    (har : (processAudio ps env.audio cfg.semitone_shift (td ++ "/shifted.wav")).success = true) :
    (strEndsWith (lowerStr cfg.out_path) ".mp4" = true →
      (runJob ps env td tbText cfg).outcome = .finishedOk cfg.out_path) ∧
    (strEndsWith (lowerStr cfg.out_path) ".mp4" = false →
      (runJob ps env td tbText cfg).outcome = .finishedOk (cfg.out_path ++ ".mp4") ∧
      cfg.out_path ++ ".mp4" ≠ cfg.out_path) := by
  have hpv : processVideo ps env cfg.semitone_shift td cfg.out_path =
      { ticks := 12 :: 40 ::
          (processAudio ps env.audio cfg.semitone_shift (td ++ "/shifted.wav")).ticks
          ++ [70, 95],
        success := true, errMsg := "",
        cfgOutUpdate := if strEndsWith (lowerStr cfg.out_path) ".mp4" = true
          then (processAudio ps env.audio cfg.semitone_shift (td ++ "/shifted.wav")).cfgOutUpdate
          else some (cfg.out_path ++ ".mp4"),
        shiftedCreated :=
          (processAudio ps env.audio cfg.semitone_shift (td ++ "/shifted.wav")).writtenTo.isSome,
        tempDirRemoved := true, transcoderCalls := 2, decodeAttempted := true,
        transformAttempted :=
          (processAudio ps env.audio cfg.semitone_shift (td ++ "/shifted.wav")).transformAttempted,
        writtenTo := some (if strEndsWith (lowerStr cfg.out_path) ".mp4" = true
          then cfg.out_path else cfg.out_path ++ ".mp4") } := by
    unfold processVideo
    rw [if_neg (by simp [hx]), if_pos har, if_neg (by simp [hm])]
  have hsucc : (processVideo ps env cfg.semitone_shift td cfg.out_path).success = true := by
    rw [hpv]
  unfold runJob
  rw [if_pos hin, if_pos hsucc, hpv]
  constructor
  · intro hend
    show JobOutcome.finishedOk
        ((if strEndsWith (lowerStr cfg.out_path) ".mp4" = true
          then (processAudio ps env.audio cfg.semitone_shift (td ++ "/shifted.wav")).cfgOutUpdate
          else some (cfg.out_path ++ ".mp4")).getD cfg.out_path) = _
    rw [if_pos hend, processAudio_shifted_noUpdate]
    rfl
  · intro hend
    constructor
    · show JobOutcome.finishedOk
        ((if strEndsWith (lowerStr cfg.out_path) ".mp4" = true
          then (processAudio ps env.audio cfg.semitone_shift (td ++ "/shifted.wav")).cfgOutUpdate
          else some (cfg.out_path ++ ".mp4")).getD cfg.out_path) = _
      rw [if_neg (by simp [hend])]
      rfl
    · exact appendNeOfNonempty cfg.out_path ".mp4" (by decide)

theorem c2_video_out_coercion_iff_not_mp4_witness :
    (runJob psId
        { audio := { loaded := .mono [1], srLoaded := 44100, decodeOk := true,
                     mp3ExportOk := true },
          extractCode := 0, extractStderrText := "", muxCode := 0, muxStderrText := "" }
        "/t" "tb"
        { in_path := "clip.mkv", out_path := "clip.mov", semitone_shift := 0,
          sr := none }).outcome = .finishedOk ("clip.mov" ++ ".mp4") ∧
    "clip.mov" ++ ".mp4" ≠ "clip.mov" :=
  (c2_video_out_coercion_iff_not_mp4 psId
    { audio := { loaded := .mono [1], srLoaded := 44100, decodeOk := true,
                 mp3ExportOk := true },
      extractCode := 0, extractStderrText := "", muxCode := 0, muxStderrText := "" }
    "/t" "tb"
    { in_path := "clip.mkv", out_path := "clip.mov", semitone_shift := 0, sr := none }
    (by decide) rfl rfl (by decide)).2 (by decide)

/-- Claim C6 as stated fails on the code in one corner: a requested audio
output path whose splitext extension is empty but which already ends in
.wav, such as the dotfile name .wav, is reported exactly as requested, so
the reported path is not distinct from the requested one. -/
theorem c6_dotwav_reported_as_requested :
    splitextExt ".wav" = "" ∧
    (runJob psId
        { audio := { loaded := .mono [1], srLoaded := 44100, decodeOk := true,
                     mp3ExportOk := true },
          extractCode := 0, extractStderrText := "", muxCode := 0, muxStderrText := "" }
        "/t" "tb"
        { in_path := "in.mp3", out_path := ".wav", semitone_shift := 0,
          sr := none }).outcome = .finishedOk ".wav" ∧
    (runJob psId
        { audio := { loaded := .mono [1], srLoaded := 44100, decodeOk := true,
                     mp3ExportOk := true },
          extractCode := 0, extractStderrText := "", muxCode := 0, muxStderrText := "" }
        "/t" "tb"
        { in_path := "in.mp3", out_path := ".wav", semitone_shift := 0,
          sr := none }).writtenTo = some ".wav" := by
  decide

/-- Claim C6 amended: for an audio job whose requested output extension is
neither .wav nor .mp3, the file is written to a path ending case
insensitively in .wav and the terminal success event carries exactly that
written path; the written path is the requested path with .wav appended
whenever the requested path does not already end in .wav, in which case it
differs from the requested one, and is the requested path itself in the
corner case where the requested path already ends in .wav; a requested
.mp3 path is reported exactly as requested. -/
theorem c6_audio_out_coercion_reporting (ps : PitchCap) (env : Env)
    (td tbText : String) (cfg : JobConfig) (Y : LoadedAudio)
    (hin : lowerStr (splitextExt cfg.in_path) ∈ SUPPORTED_AUDIO_EXTS)
    (hdec : env.audio.decodeOk = true)
    (hasm : assembleY (processChannels ps env.audio.srLoaded cfg.semitone_shift
        (asChannelList env.audio.loaded)) = some Y) :
    ((lowerStr (splitextExt cfg.out_path) ≠ ".wav" ∧
      lowerStr (splitextExt cfg.out_path) ≠ ".mp3") →
      (strEndsWith (lowerStr cfg.out_path) ".wav" = true →
        (runJob ps env td tbText cfg).outcome = .finishedOk cfg.out_path ∧
        (runJob ps env td tbText cfg).writtenTo = some cfg.out_path) ∧
      (strEndsWith (lowerStr cfg.out_path) ".wav" = false →
        (runJob ps env td tbText cfg).outcome = .finishedOk (cfg.out_path ++ ".wav") ∧
        (runJob ps env td tbText cfg).writtenTo = some (cfg.out_path ++ ".wav") ∧
        strEndsWith (lowerStr (cfg.out_path ++ ".wav")) ".wav" = true ∧
        cfg.out_path ++ ".wav" ≠ cfg.out_path)) ∧
    (lowerStr (splitextExt cfg.out_path) = ".mp3" → env.audio.mp3ExportOk = true →
      (runJob ps env td tbText cfg).outcome = .finishedOk cfg.out_path) := by
  have hnv := audio_not_video hin
  have hpa := processAudio_eq_encodePart ps env.audio cfg.semitone_shift
    cfg.out_path Y hdec hasm
  constructor
  · rintro ⟨h1, h2⟩
    constructor
    · intro hend
      have hE : encodePart env.audio.mp3ExportOk Y cfg.out_path =
          { ticks := [10, 30, 70, 90], success := true, errMsg := "",
            cfgOutUpdate := none, writtenTo := some cfg.out_path, outBuf := some Y,
            tmpWavCreated := false, tmpWavRemoved := false,
            transformAttempted := true } := by
        unfold encodePart
        rw [if_neg h1, if_neg h2, if_pos hend]
      have hsucc : (processAudio ps env.audio cfg.semitone_shift cfg.out_path).success
          = true := by rw [hpa, hE]
      unfold runJob
      rw [if_neg hnv, if_pos hin, if_pos hsucc, hpa, hE]
      exact ⟨rfl, rfl⟩
    · intro hend
      have hE : encodePart env.audio.mp3ExportOk Y cfg.out_path =
          { ticks := [10, 30, 70, 90], success := true, errMsg := "",
            cfgOutUpdate := some (cfg.out_path ++ ".wav"),
            writtenTo := some (cfg.out_path ++ ".wav"), outBuf := some Y,
            tmpWavCreated := false, tmpWavRemoved := false,
            transformAttempted := true } := by
        unfold encodePart
        rw [if_neg h1, if_neg h2, if_neg (by simp [hend])]
      have hsucc : (processAudio ps env.audio cfg.semitone_shift cfg.out_path).success
          = true := by rw [hpa, hE]
      unfold runJob
      rw [if_neg hnv, if_pos hin, if_pos hsucc, hpa, hE]
      refine ⟨rfl, rfl, ?_, appendNeOfNonempty cfg.out_path ".wav" (by decide)⟩
      rw [lowerStr_append, show lowerStr ".wav" = ".wav" by decide]
      exact strEndsWith_append _ _
  · intro h3 h4
    have hE : encodePart env.audio.mp3ExportOk Y cfg.out_path =
        { ticks := [10, 30, 70, 90], success := true, errMsg := "",
          cfgOutUpdate := none, writtenTo := some cfg.out_path, outBuf := some Y,
          tmpWavCreated := true, tmpWavRemoved := true,
          transformAttempted := true } := by
      unfold encodePart
      rw [if_neg (by rw [h3]; decide), if_pos h3, if_pos h4]
    have hsucc : (processAudio ps env.audio cfg.semitone_shift cfg.out_path).success
        = true := by rw [hpa, hE]
    unfold runJob
    rw [if_neg hnv, if_pos hin, if_pos hsucc, hpa, hE]
    rfl

theorem c6_audio_out_coercion_reporting_witness :
    (runJob psId
        { audio := { loaded := .mono [1], srLoaded := 44100, decodeOk := true,
                     mp3ExportOk := true },
          extractCode := 0, extractStderrText := "", muxCode := 0, muxStderrText := "" }
        "/t" "tb"
        { in_path := "in.mp3", out_path := "name.txt", semitone_shift := 0,
          sr := none }).outcome = .finishedOk ("name.txt" ++ ".wav") ∧
    "name.txt" ++ ".wav" ≠ "name.txt" :=
  have h := ((c6_audio_out_coercion_reporting psId
    { audio := { loaded := .mono [1], srLoaded := 44100, decodeOk := true,
                 mp3ExportOk := true },
      extractCode := 0, extractStderrText := "", muxCode := 0, muxStderrText := "" }
    "/t" "tb"
    { in_path := "in.mp3", out_path := "name.txt", semitone_shift := 0, sr := none }
    (LoadedAudio.mono (psId (padChannel [1]) 44100 0))
    (by decide) rfl rfl).1 (by decide)).2 (by decide)
  ⟨h.1, h.2.2.2⟩

/-- Claim C7: the buffer set handed to the encoder has exactly as many
channels as the decoded input, each channel being the per channel
transform result in original channel order. -/
theorem c7_channel_count_preserved (ps : PitchCap) (a : AudioEnv) (nSteps : ℚ)
    (out : String) (Y : LoadedAudio) (hdec : a.decodeOk = true)
    (hasm : assembleY (processChannels ps a.srLoaded nSteps (asChannelList a.loaded))
        = some Y) :
    (processAudio ps a nSteps out).outBuf = some Y ∧
    asChannelList Y = processChannels ps a.srLoaded nSteps (asChannelList a.loaded) ∧
    loadedChannels Y = loadedChannels a.loaded := by
  have h1 := processAudio_eq_encodePart ps a nSteps out Y hdec hasm
  have h2 := assembleY_eq_some hasm
  refine ⟨?_, h2.1, ?_⟩
  · rw [h1]
    exact encodePart_outBuf _ _ _
  · rw [h2.2]
    unfold processChannels
    rw [List.length_map]
    cases a.loaded <;> rfl

theorem c7_channel_count_preserved_witness :
    (processAudio psId
        { loaded := .multi [[1], [2]], srLoaded := 8000, decodeOk := true,
          mp3ExportOk := true } 0 "o.wav").outBuf
      = some (LoadedAudio.multi [psId (padChannel [1]) 8000 0,
          psId (padChannel [2]) 8000 0]) ∧
    asChannelList (LoadedAudio.multi [psId (padChannel [1]) 8000 0,
          psId (padChannel [2]) 8000 0])
      = processChannels psId 8000 0 (asChannelList (LoadedAudio.multi [[1], [2]])) ∧
    loadedChannels (LoadedAudio.multi [psId (padChannel [1]) 8000 0,
          psId (padChannel [2]) 8000 0])
      = loadedChannels (LoadedAudio.multi [[(1 : ℚ)], [2]]) :=
  c7_channel_count_preserved psId
    { loaded := .multi [[1], [2]], srLoaded := 8000, decodeOk := true,
      mp3ExportOk := true } 0 "o.wav"
    (LoadedAudio.multi [psId (padChannel [1]) 8000 0, psId (padChannel [2]) 8000 0])
    rfl
    (by
      have hlen : (psId (padChannel [2]) 8000 0).length
          = (psId (padChannel [1]) 8000 0).length := by
        show (padChannel [2]).length = (padChannel [1]).length
        rw [padChannel_length_eq [2] (by decide), padChannel_length_eq [1] (by decide)]
      have hd : (decide ((psId (padChannel [2]) 8000 0).length
          = (psId (padChannel [1]) 8000 0).length)) = true := decide_eq_true hlen
      show assembleY [psId (padChannel [1]) 8000 0, psId (padChannel [2]) 8000 0] = _
      simp only [assembleY, List.all_cons, List.all_nil, hd, Bool.and_self, if_true])

/-- Claim C10: output path coercion appends the fallback extension to the
requested path instead of replacing the unrecognised extension, name.ogg
becoming name.ogg.wav for audio and name.avi becoming name.avi.mp4 for
video, and on every successful job the reported output path extends the
requested path. -/
theorem c10_coercion_appends_suffix :
    (runJob psId
        { audio := { loaded := .mono [1], srLoaded := 44100, decodeOk := true,
                     mp3ExportOk := true },
          extractCode := 0, extractStderrText := "", muxCode := 0, muxStderrText := "" }
        "/t" "tb"
        { in_path := "x.wav", out_path := "name.ogg", semitone_shift := 0,
          sr := none }).outcome = .finishedOk "name.ogg.wav" ∧
    (runJob psId
        { audio := { loaded := .mono [1], srLoaded := 44100, decodeOk := true,
                     mp3ExportOk := true },
          extractCode := 0, extractStderrText := "", muxCode := 0, muxStderrText := "" }
        "/t" "tb"
        { in_path := "clip.mp4", out_path := "name.avi", semitone_shift := 0,
          sr := none }).outcome = .finishedOk "name.avi.mp4" ∧
    ∀ (ps : PitchCap) (env : Env) (td tbText : String) (cfg : JobConfig) (p : String),
      (runJob ps env td tbText cfg).outcome = .finishedOk p →
      ∃ s, p = cfg.out_path ++ s := by
  refine ⟨by decide, by decide, ?_⟩
  intro ps env td tbText cfg p h
  unfold runJob at h
  split at h
  · split at h
    · simp only [JobOutcome.finishedOk.injEq] at h
      rcases processVideo_cfgOutUpdate_cases ps env cfg.semitone_shift td cfg.out_path
        with hc | hc <;> rw [hc] at h
      · exact ⟨"", by rw [strAppendEmpty]; exact h.symm⟩
      · exact ⟨".mp4", h.symm⟩
    · exact JobOutcome.noConfusion h
  · split at h
    · split at h
      · simp only [JobOutcome.finishedOk.injEq] at h
        rcases processAudio_cfgOutUpdate_cases ps env.audio cfg.semitone_shift
          cfg.out_path with hc | hc <;> rw [hc] at h
        · exact ⟨"", by rw [strAppendEmpty]; exact h.symm⟩
        · exact ⟨".wav", h.symm⟩
      · exact JobOutcome.noConfusion h
    · exact JobOutcome.noConfusion h

theorem c10_coercion_appends_suffix_witness :
    ∃ s, "name.ogg.wav" = "name.ogg" ++ s :=
  c10_coercion_appends_suffix.2.2 psId
    { audio := { loaded := .mono [1], srLoaded := 44100, decodeOk := true,
                 mp3ExportOk := true },
      extractCode := 0, extractStderrText := "", muxCode := 0, muxStderrText := "" }
    "/t" "tb"
    { in_path := "x.wav", out_path := "name.ogg", semitone_shift := 0, sr := none }
    "name.ogg.wav" (by decide)

end PitchChangher
